import Mathlib

/-!
Verification of the k8s-mcp MCP server core against its specification.

The definitions below are a shallow embedding of the Go source:
the cluster registry (internal/k8s cluster manager), the resource bridge
(internal/k8s/resources.go), the hand-rolled MCP dispatcher
(internal/mcp/transport.go) and the MCP server handlers.
Opaque external effects (the Kubernetes API client, JSON decoding of
request parameters) are passed in as explicit function arguments; pure
logic is translated directly.
-/

namespace K8sMCP

/-! Cluster registry: the ClusterManager from internal/k8s (cluster manager
source listing reproduced in the repository README). A Kubernetes client
handle is opaque; we model it by a natural number. -/

/-- Opaque stand-in for a kubernetes Clientset handle. -/
abbrev Client := Nat

/-- State of the ClusterManager: the name-to-client map (modelled as an
association list with Go map insert/replace semantics) and the current
cluster name (empty string when none is set). The configs map carries no
behaviour relevant to the claims and is omitted. -/
structure ClusterManager where
  clusters : List (String × Client)
  currentCluster : String
deriving DecidableEq, Repr

/-- Membership test of a key in the modelled Go map. -/
def mapHasKey (m : List (String × Client)) (k : String) : Bool :=
  match m with
  | [] => false
  | (k', _) :: rest => k' == k || mapHasKey rest k

/-- Go map insertion: replace the binding when the key exists, append otherwise. -/
def mapInsert (m : List (String × Client)) (k : String) (v : Client) : List (String × Client) :=
  match m with
  | [] => [(k, v)]
  | (k', v') :: rest => if k' == k then (k, v) :: rest else (k', v') :: mapInsert rest k v

/-- Go map lookup. -/
def mapGet (m : List (String × Client)) (k : String) : Option Client :=
  match m with
  | [] => none
  | (k', v') :: rest => if k' == k then some v' else mapGet rest k

/-- NewClusterManager: empty map, no current cluster. -/
def NewClusterManager : ClusterManager :=
  { clusters := [], currentCluster := "" }

/-- GetCurrentCluster returns the current active cluster name. -/
def GetCurrentCluster (cm : ClusterManager) : String :=
  cm.currentCluster

/-- GetClusters returns the list of registered cluster names (map iteration
order is modelled by the insertion order of the association list). -/
def GetClusters (cm : ClusterManager) : List String :=
  cm.clusters.map Prod.fst

/-- SwitchCluster from the cluster manager: error when the name is not
registered (state untouched), otherwise set currentCluster. The first
component is the returned error (none on success), the second the
post-state of the receiver. -/
def SwitchCluster (cm : ClusterManager) (clusterName : String) : Option String × ClusterManager :=
  if mapHasKey cm.clusters clusterName then
    (none, { cm with currentCluster := clusterName })
  else
    (some ("cluster " ++ clusterName ++ " not found"), cm)

/-- AddCluster: kubernetes.NewForConfig is an external effect, passed in as
its result `newClient`. On client-creation failure the state is untouched;
on success the client is stored and the cluster becomes current when no
current cluster was set. -/
def AddCluster (cm : ClusterManager) (name : String) (newClient : Except String Client) :
    Option String × ClusterManager :=
  match newClient with
  | .error e => (some ("failed to create client for cluster " ++ name ++ ": " ++ e), cm)
  | .ok clientset =>
    let cm1 := { cm with clusters := mapInsert cm.clusters name clientset }
    if cm1.currentCluster == "" then
      (none, { cm1 with currentCluster := name })
    else
      (none, cm1)

/-- A kubeconfig context; only the referenced cluster name matters here. -/
structure KubeContext where
  cluster : String
deriving DecidableEq, Repr

/-- addContextCluster: builds a client for a kubeconfig context (the
client-construction pipeline is the external effect `newClient`), registers
it under the context's cluster name, and sets the first registered cluster
as current when none is set. -/
def addContextCluster (cm : ClusterManager) (contextName : String) (context : KubeContext)
    (newClient : Except String Client) : Option String × ClusterManager :=
  let clusterName := context.cluster
  match newClient with
  | .error e => (some ("failed to create client for context " ++ contextName ++ ": " ++ e), cm)
  | .ok clientset =>
    let cm1 := { cm with clusters := mapInsert cm.clusters clusterName clientset }
    if cm1.currentCluster == "" then
      (none, { cm1 with currentCluster := clusterName })
    else
      (none, cm1)

/-- LoadKubeConfigAndInitCluster: iterate the kubeconfig contexts and add
each one; stop at the first failing context, keeping the clusters added so
far (the Go loop returns the error immediately). Each context comes with
the result of its client construction. -/
def LoadKubeConfigAndInitCluster (cm : ClusterManager)
    (contexts : List (String × KubeContext × Except String Client)) :
    Option String × ClusterManager :=
  match contexts with
  | [] => (none, cm)
  | (contextName, context, newClient) :: rest =>
    match addContextCluster cm contextName context newClient with
    | (some e, cm1) => (some e, cm1)
    | (none, cm1) => LoadKubeConfigAndInitCluster cm1 rest

/-- GetCurrentClient: error when no current cluster is set or the current
name has no client in the map. -/
def GetCurrentClient (cm : ClusterManager) : Except String Client :=
  if cm.currentCluster == "" then
    .error "no current cluster set"
  else
    match mapGet cm.clusters cm.currentCluster with
    | none => .error ("client for cluster " ++ cm.currentCluster ++ " not found")
    | some client => .ok client

/-- Registry invariant from the spec data model: whenever at least one
handle exists, the current-cluster name refers to a registered handle. The
second conjunct (an empty registry has no current name) is the inductive
strengthening that makes the invariant closed under the operations. -/
def RegistryInv (cm : ClusterManager) : Prop :=
  (cm.clusters ≠ [] → mapHasKey cm.clusters cm.currentCluster = true) ∧
  (cm.clusters = [] → cm.currentCluster = "")

instance RegistryInv.instDecidable (cm : ClusterManager) : Decidable (RegistryInv cm) :=
  inferInstanceAs (Decidable
    ((cm.clusters ≠ [] → mapHasKey cm.clusters cm.currentCluster = true) ∧
     (cm.clusters = [] → cm.currentCluster = "")))

lemma mapHasKey_mapInsert_self (m : List (String × Client)) (k : String) (v : Client) :
    mapHasKey (mapInsert m k v) k = true := by
  induction m with
  | nil => simp [mapInsert, mapHasKey]
  | cons p rest ih =>
    obtain ⟨k', v'⟩ := p
    by_cases h : k' == k
    · simp [mapInsert, h, mapHasKey]
    · simp [mapInsert, h, mapHasKey, ih]

lemma mapHasKey_mapInsert_of_mapHasKey (m : List (String × Client)) (k k' : String) (v : Client)
    (h : mapHasKey m k' = true) : mapHasKey (mapInsert m k v) k' = true := by
  induction m with
  | nil => simp [mapHasKey] at h
  | cons p rest ih =>
    obtain ⟨k0, v0⟩ := p
    by_cases hk : k0 == k
    · rw [mapHasKey] at h
      rcases Bool.or_eq_true_iff.mp h with h1 | h1
      · have e1 : k0 = k := by simpa using hk
        have e2 : k0 = k' := by simpa using h1
        subst e1
        subst e2
        exact mapHasKey_mapInsert_self _ _ _
      · simp [mapInsert, hk, mapHasKey, h1]
    · rw [mapHasKey] at h
      rcases Bool.or_eq_true_iff.mp h with h1 | h1
      · simp [mapInsert, hk, mapHasKey, h1]
      · simp [mapInsert, hk, mapHasKey, ih h1]

lemma mapInsert_ne_nil (m : List (String × Client)) (k : String) (v : Client) :
    mapInsert m k v ≠ [] := by
  cases m with
  | nil => simp [mapInsert]
  | cons p rest =>
    obtain ⟨k', v'⟩ := p
    by_cases h : k' == k <;> simp [mapInsert, h]

/-- C3: SwitchCluster with an unregistered name returns the domain error and
leaves the whole state (in particular the current cluster) unchanged;
SwitchCluster with a registered name succeeds, sets the current cluster to
that name, and calling it again with the same name returns success with an
identical state (idempotence). -/
theorem SwitchCluster_absent_error_and_idempotent (cm : ClusterManager) (name : String) :
    (mapHasKey cm.clusters name = false →
      SwitchCluster cm name = (some ("cluster " ++ name ++ " not found"), cm)) ∧
    (mapHasKey cm.clusters name = true →
      SwitchCluster cm name = (none, { cm with currentCluster := name }) ∧
      (SwitchCluster cm name).2.currentCluster = name ∧
      SwitchCluster (SwitchCluster cm name).2 name = (none, (SwitchCluster cm name).2)) := by
  constructor
  · intro h
    simp [SwitchCluster, h]
  · intro h
    refine ⟨by simp [SwitchCluster, h], by simp [SwitchCluster, h], ?_⟩
    simp [SwitchCluster, h]

/-- Witness for C3 at a concrete registry with clusters a and b, current a:
switching to the unregistered name zzz fails and leaves the state unchanged,
and switching to b succeeds, sets current to b, and is idempotent. -/
theorem SwitchCluster_absent_error_and_idempotent_witness :
    (mapHasKey (⟨[("a", 0), ("b", 1)], "a"⟩ : ClusterManager).clusters "zzz" = false ∧
      SwitchCluster ⟨[("a", 0), ("b", 1)], "a"⟩ "zzz" =
        (some "cluster zzz not found", ⟨[("a", 0), ("b", 1)], "a"⟩)) ∧
    (mapHasKey (⟨[("a", 0), ("b", 1)], "a"⟩ : ClusterManager).clusters "b" = true ∧
      (SwitchCluster ⟨[("a", 0), ("b", 1)], "a"⟩ "b").2.currentCluster = "b" ∧
      SwitchCluster (SwitchCluster ⟨[("a", 0), ("b", 1)], "a"⟩ "b").2 "b" =
        (none, (SwitchCluster ⟨[("a", 0), ("b", 1)], "a"⟩ "b").2)) :=
  ⟨⟨by decide,
    (SwitchCluster_absent_error_and_idempotent ⟨[("a", 0), ("b", 1)], "a"⟩ "zzz").1 (by decide)⟩,
   ⟨by decide,
    ((SwitchCluster_absent_error_and_idempotent ⟨[("a", 0), ("b", 1)], "a"⟩ "b").2 (by decide)).2.1,
    ((SwitchCluster_absent_error_and_idempotent ⟨[("a", 0), ("b", 1)], "a"⟩ "b").2 (by decide)).2.2⟩⟩

lemma RegistryInv_register (cm : ClusterManager) (name : String) (clientset : Client)
    (h : RegistryInv cm) :
    RegistryInv
      (let cm1 : ClusterManager := { cm with clusters := mapInsert cm.clusters name clientset }
       if cm1.currentCluster == "" then { cm1 with currentCluster := name } else cm1) := by
  obtain ⟨h1, h2⟩ := h
  by_cases hcur : cm.currentCluster == ""
  · refine ⟨fun _ => ?_, fun hnil => ?_⟩
    · simpa [hcur] using mapHasKey_mapInsert_self cm.clusters name clientset
    · exact absurd (by simpa [hcur] using hnil) (mapInsert_ne_nil cm.clusters name clientset)
  · have hold : cm.clusters ≠ [] := by
      intro hnil
      exact hcur (by simp [h2 hnil])
    refine ⟨fun _ => ?_, fun hnil => ?_⟩
    · simpa [hcur] using
        mapHasKey_mapInsert_of_mapHasKey cm.clusters name cm.currentCluster clientset (h1 hold)
    · exact absurd (by simpa [hcur] using hnil) (mapInsert_ne_nil cm.clusters name clientset)

lemma RegistryInv_AddCluster (cm : ClusterManager) (name : String)
    (newClient : Except String Client) (h : RegistryInv cm) :
    RegistryInv (AddCluster cm name newClient).2 := by
  cases newClient with
  | error e => exact h
  | ok clientset =>
    have := RegistryInv_register cm name clientset h
    by_cases hcur : cm.currentCluster == "" <;>
      simpa [AddCluster, hcur] using (by simpa [hcur] using this : _)

lemma RegistryInv_addContextCluster (cm : ClusterManager) (contextName : String)
    (context : KubeContext) (newClient : Except String Client) (h : RegistryInv cm) :
    RegistryInv (addContextCluster cm contextName context newClient).2 := by
  cases newClient with
  | error e => exact h
  | ok clientset =>
    have := RegistryInv_register cm context.cluster clientset h
    by_cases hcur : cm.currentCluster == "" <;>
      simpa [addContextCluster, hcur] using (by simpa [hcur] using this : _)

lemma RegistryInv_SwitchCluster (cm : ClusterManager) (name : String) (h : RegistryInv cm) :
    RegistryInv (SwitchCluster cm name).2 := by
  obtain ⟨h1, h2⟩ := h
  by_cases hk : mapHasKey cm.clusters name
  · refine ⟨fun _ => by simp [SwitchCluster, hk], fun hnil => ?_⟩
    · exfalso
      have : cm.clusters = [] := by simpa [SwitchCluster, hk] using hnil
      rw [this] at hk
      simp [mapHasKey] at hk
  · simpa [SwitchCluster, hk] using ⟨h1, h2⟩

lemma RegistryInv_LoadKubeConfigAndInitCluster (cm : ClusterManager)
    (contexts : List (String × KubeContext × Except String Client)) (h : RegistryInv cm) :
    RegistryInv (LoadKubeConfigAndInitCluster cm contexts).2 := by
  induction contexts generalizing cm with
  | nil => exact h
  | cons entry rest ih =>
    obtain ⟨contextName, context, newClient⟩ := entry
    have hstep := RegistryInv_addContextCluster cm contextName context newClient h
    rw [LoadKubeConfigAndInitCluster]
    cases hres : addContextCluster cm contextName context newClient with
    | mk err cm1 =>
      cases err with
      | none =>
        simpa using ih cm1 (by simpa [hres] using hstep)
      | some e =>
        simpa using (by simpa [hres] using hstep : RegistryInv cm1)

/-- C5: the registry invariant (a nonempty registry's current name refers to
a registered handle, and an empty registry has no current name) is preserved
by AddCluster, addContextCluster, SwitchCluster, and the kubeconfig loading
loop; the first successfully registered cluster becomes current when no
current cluster is set; registration never changes an already-set current
cluster, so after registration the current name changes only through a
SwitchCluster call, which succeeds exactly on registered targets and leaves
the state unchanged otherwise. -/
theorem Registry_invariant_preserved (cm : ClusterManager) (h : RegistryInv cm) :
    (∀ name newClient, RegistryInv (AddCluster cm name newClient).2) ∧
    (∀ contextName context newClient,
      RegistryInv (addContextCluster cm contextName context newClient).2) ∧
    (∀ name, RegistryInv (SwitchCluster cm name).2) ∧
    (∀ contexts, RegistryInv (LoadKubeConfigAndInitCluster cm contexts).2) ∧
    (∀ name clientset, cm.currentCluster = "" →
      (AddCluster cm name (.ok clientset)).2.currentCluster = name) ∧
    (∀ contextName context clientset, cm.currentCluster = "" →
      (addContextCluster cm contextName context (.ok clientset)).2.currentCluster =
        context.cluster) ∧
    (∀ name newClient, cm.currentCluster ≠ "" →
      (AddCluster cm name newClient).2.currentCluster = cm.currentCluster) ∧
    (∀ contextName context newClient, cm.currentCluster ≠ "" →
      (addContextCluster cm contextName context newClient).2.currentCluster =
        cm.currentCluster) ∧
    (∀ name, mapHasKey cm.clusters name = false → (SwitchCluster cm name).2 = cm) ∧
    (∀ name, mapHasKey cm.clusters name = true →
      (SwitchCluster cm name).2.currentCluster = name) := by
  refine ⟨fun name newClient => RegistryInv_AddCluster cm name newClient h,
    fun contextName context newClient =>
      RegistryInv_addContextCluster cm contextName context newClient h,
    fun name => RegistryInv_SwitchCluster cm name h,
    fun contexts => RegistryInv_LoadKubeConfigAndInitCluster cm contexts h,
    ?_, ?_, ?_, ?_, ?_, ?_⟩
  · intro name clientset hcur
    simp [AddCluster, hcur]
  · intro contextName context clientset hcur
    simp [addContextCluster, hcur]
  · intro name newClient hcur
    cases newClient with
    | error e => rfl
    | ok clientset => simp [AddCluster, hcur]
  · intro contextName context newClient hcur
    cases newClient with
    | error e => rfl
    | ok clientset => simp [addContextCluster, hcur]
  · intro name hk
    simp [SwitchCluster, hk]
  · intro name hk
    simp [SwitchCluster, hk]

/-- Witness for C5 at the concrete registry with clusters a and b and
current a, which satisfies the invariant; instantiates the preservation
theorem there and additionally applies the first-registration clause on the
empty registry. -/
theorem Registry_invariant_preserved_witness :
    (RegistryInv ⟨[("a", 0), ("b", 1)], "a"⟩ ∧
      RegistryInv (AddCluster ⟨[("a", 0), ("b", 1)], "a"⟩ "c" (.ok 2)).2 ∧
      RegistryInv (SwitchCluster ⟨[("a", 0), ("b", 1)], "a"⟩ "b").2) ∧
    (RegistryInv NewClusterManager ∧
      (AddCluster NewClusterManager "first" (.ok 7)).2.currentCluster = "first") :=
  ⟨⟨by decide,
    (Registry_invariant_preserved ⟨[("a", 0), ("b", 1)], "a"⟩ (by decide)).1 "c" (.ok 2),
    (Registry_invariant_preserved ⟨[("a", 0), ("b", 1)], "a"⟩ (by decide)).2.2.1 "b"⟩,
   ⟨by decide,
    (Registry_invariant_preserved NewClusterManager (by decide)).2.2.2.2.1 "first" 7 (by decide)⟩⟩

/-! Pod status derivation: getPodStatus from internal/k8s/resources.go. -/

/-- Waiting state of a container. -/
structure ContainerStateWaiting where
  reason : String
deriving DecidableEq, Repr

/-- Terminated state of a container. -/
structure ContainerStateTerminated where
  exitCode : Int
  reason : String
deriving DecidableEq, Repr

/-- The state of a container: either sub-state may be present. -/
structure ContainerState where
  waiting : Option ContainerStateWaiting := none
  terminated : Option ContainerStateTerminated := none
deriving DecidableEq, Repr

/-- Status of one container; only the state field is consulted. -/
structure ContainerStatus where
  state : ContainerState
deriving DecidableEq, Repr

/-- Pod-level status block. -/
structure PodStatus where
  phase : String
  reason : String
  initContainerStatuses : List ContainerStatus
  containerStatuses : List ContainerStatus
deriving DecidableEq, Repr

/-- A pod: the deletion timestamp (present or absent) and the status block. -/
structure Pod where
  deletionTimestamp : Option String := none
  status : PodStatus
deriving DecidableEq, Repr

/-- Body of the init-container loop of getPodStatus for one container:
a terminated state with non-zero exit yields an Init-prefixed reason
(Init:Error when the reason is empty); otherwise a waiting state with a
non-empty reason other than PodInitializing yields the Init-prefixed
reason; otherwise the loop continues (none). -/
def initContainerSignal (containerStatus : ContainerStatus) : Option String :=
  match containerStatus.state.terminated with
  | some t =>
    if t.exitCode ≠ 0 then
      if t.reason ≠ "" then some ("Init:" ++ t.reason) else some "Init:Error"
    else
      match containerStatus.state.waiting with
      | some w =>
        if w.reason ≠ "" then
          if w.reason ≠ "PodInitializing" then some ("Init:" ++ w.reason) else none
        else none
      | none => none
  | none =>
    match containerStatus.state.waiting with
    | some w =>
      if w.reason ≠ "" then
        if w.reason ≠ "PodInitializing" then some ("Init:" ++ w.reason) else none
      else none
    | none => none

/-- Body of the main-container loop of getPodStatus for one container:
a waiting state with a non-empty reason wins first, then a terminated
state with non-zero exit (Error when the reason is empty); otherwise the
loop continues (none). -/
def containerSignal (containerStatus : ContainerStatus) : Option String :=
  match containerStatus.state.waiting with
  | some w =>
    if w.reason ≠ "" then some w.reason
    else
      match containerStatus.state.terminated with
      | some t =>
        if t.exitCode ≠ 0 then
          if t.reason ≠ "" then some t.reason else some "Error"
        else none
      | none => none
  | none =>
    match containerStatus.state.terminated with
    | some t =>
      if t.exitCode ≠ 0 then
        if t.reason ≠ "" then some t.reason else some "Error"
      else none
    | none => none

/-- getPodStatus: the kubectl-like single status string of a pod, with the
precedence deletion marker, pod-level reason, init-container loop,
main-container loop, coarse phase. -/
def getPodStatus (pod : Pod) : String :=
  if pod.deletionTimestamp.isSome then "Terminating"
  else if pod.status.reason ≠ "" then pod.status.reason
  else
    match pod.status.initContainerStatuses.findSome? initContainerSignal with
    | some s => s
    | none =>
      match pod.status.containerStatuses.findSome? containerSignal with
      | some s => s
      | none => pod.status.phase

/-! A second formulation of the derivation following the specification text,
phrased as first-match-wins scans written with accessor predicates, to be
proved equal to the source translation above. -/

/-- True when the container has a terminated state with non-zero exit code. -/
def terminatedNonZero (containerStatus : ContainerStatus) : Bool :=
  match containerStatus.state.terminated with
  | some t => t.exitCode != 0
  | none => false

/-- Reason of the terminated state, empty when absent. -/
def terminatedReason (containerStatus : ContainerStatus) : String :=
  match containerStatus.state.terminated with
  | some t => t.reason
  | none => ""

/-- Reason of the waiting state, empty when absent. -/
def waitingReason (containerStatus : ContainerStatus) : String :=
  match containerStatus.state.waiting with
  | some w => w.reason
  | none => ""

/-- Spec formulation of the init-container scan, in declared order, first
match wins: termination with non-zero exit yields Init: plus the reason
(Init:Error if the reason is empty); waiting with a non-empty reason other
than PodInitializing yields Init: plus the reason. -/
def initLoopSpec : List ContainerStatus → Option String
  | [] => none
  | containerStatus :: rest =>
    if terminatedNonZero containerStatus then
      some (if terminatedReason containerStatus = "" then "Init:Error"
            else "Init:" ++ terminatedReason containerStatus)
    else if waitingReason containerStatus ≠ "" ∧
        waitingReason containerStatus ≠ "PodInitializing" then
      some ("Init:" ++ waitingReason containerStatus)
    else initLoopSpec rest

/-- Spec formulation of the main-container scan, in declared order, first
match wins: waiting with a non-empty reason yields that reason verbatim,
checked before the termination state; termination with non-zero exit yields
its reason verbatim (Error if the reason is empty). -/
def mainLoopSpec : List ContainerStatus → Option String
  | [] => none
  | containerStatus :: rest =>
    if waitingReason containerStatus ≠ "" then
      some (waitingReason containerStatus)
    else if terminatedNonZero containerStatus then
      some (if terminatedReason containerStatus = "" then "Error"
            else terminatedReason containerStatus)
    else mainLoopSpec rest

/-- Spec formulation of the whole derivation: deletion marker, pod-level
reason verbatim, init-container scan, main-container scan, coarse phase. -/
def podStatusSpec (pod : Pod) : String :=
  if pod.deletionTimestamp.isSome then "Terminating"
  else if pod.status.reason ≠ "" then pod.status.reason
  else
    match initLoopSpec pod.status.initContainerStatuses with
    | some s => s
    | none =>
      match mainLoopSpec pod.status.containerStatuses with
      | some s => s
      | none => pod.status.phase

lemma initContainerSignal_eq (containerStatus : ContainerStatus) :
    initContainerSignal containerStatus =
      if terminatedNonZero containerStatus then
        some (if terminatedReason containerStatus = "" then "Init:Error"
              else "Init:" ++ terminatedReason containerStatus)
      else if waitingReason containerStatus ≠ "" ∧
          waitingReason containerStatus ≠ "PodInitializing" then
        some ("Init:" ++ waitingReason containerStatus)
      else none := by
  unfold initContainerSignal terminatedNonZero terminatedReason waitingReason
  cases containerStatus.state.terminated with
  | none =>
    cases containerStatus.state.waiting with
    | none => simp
    | some w => split_ifs <;> simp_all
  | some t =>
    cases containerStatus.state.waiting with
    | none => split_ifs <;> simp_all
    | some w => split_ifs <;> simp_all

lemma containerSignal_eq (containerStatus : ContainerStatus) :
    containerSignal containerStatus =
      if waitingReason containerStatus ≠ "" then
        some (waitingReason containerStatus)
      else if terminatedNonZero containerStatus then
        some (if terminatedReason containerStatus = "" then "Error"
              else terminatedReason containerStatus)
      else none := by
  unfold containerSignal terminatedNonZero terminatedReason waitingReason
  cases containerStatus.state.waiting with
  | none =>
    cases containerStatus.state.terminated with
    | none => simp
    | some t => split_ifs <;> simp_all
  | some w =>
    cases containerStatus.state.terminated with
    | none => split_ifs <;> simp_all
    | some t => split_ifs <;> simp_all

lemma findSome?_initContainerSignal (l : List ContainerStatus) :
    l.findSome? initContainerSignal = initLoopSpec l := by
  induction l with
  | nil => rfl
  | cons containerStatus rest ih =>
    rw [List.findSome?_cons, initContainerSignal_eq, initLoopSpec]
    split_ifs <;> simp [ih]

lemma findSome?_containerSignal (l : List ContainerStatus) :
    l.findSome? containerSignal = mainLoopSpec l := by
  induction l with
  | nil => rfl
  | cons containerStatus rest ih =>
    rw [List.findSome?_cons, containerSignal_eq, mainLoopSpec]
    split_ifs <;> simp [ih]

/-- C2: the derived pod status string computed by getPodStatus agrees, on
every pod, with the precedence stated by the specification: deletion marker
first, then the pod-level reason verbatim, then the init-container scan
(Init:reason or Init:Error for non-zero termination, Init:reason for
waiting other than PodInitializing), then the main-container scan (waiting
reason verbatim before termination, termination reason verbatim or Error),
and otherwise the coarse lifecycle phase. -/
theorem getPodStatus_eq_spec (pod : Pod) : getPodStatus pod = podStatusSpec pod := by
  unfold getPodStatus podStatusSpec
  rw [findSome?_initContainerSignal, findSome?_containerSignal]

/-! Log retrieval: GetPodLogs from internal/k8s/resources.go. The log
stream delivered by the Kubernetes API is modelled as the list of bytes
(characters) it would produce in total; the limited reader takes at most
maxLogBytes of them. -/

/-- The fixed byte ceiling on a log read (1 MiB). -/
def maxLogBytes : Nat := 1 * 1024 * 1024

/-- The marker appended when the log read hit the ceiling. -/
def truncationMarker : List Char := "\n\n[Logs truncated: exceeded 1MB limit]".toList

/-- Options of the issued log request. -/
structure PodLogOptions where
  container : String
  tailLines : Int
  previous : Bool
deriving DecidableEq, Repr

/-- The limited read of the stream: io.LimitReader at maxLogBytes followed
by io.ReadAll. -/
def readLogStream (stream : List Char) : List Char :=
  stream.take maxLogBytes

/-- The text returned from the bytes read: the truncation marker is appended
when the number of bytes read reached the ceiling. -/
def renderLogs (stream : List Char) : List Char :=
  let logBytes := readLogStream stream
  if maxLogBytes ≤ logBytes.length then logBytes ++ truncationMarker else logBytes

/-- GetPodLogs: defaults tailLines to 100 when unspecified, resolves the
container name (first declared container of the pod when omitted, error on
a pod with no containers), issues the log request with those options and
returns the bounded text. The pod's declared container names and the
stream content stand in for the two API reads. -/
def GetPodLogs (podName containerName : String) (tailLines : Option Int) (previous : Bool)
    (podContainers : List String) (stream : List Char) :
    Except String (PodLogOptions × List Char) :=
  let tl : Int :=
    match tailLines with
    | none => 100
    | some n => n
  let containerResult : Except String String :=
    if containerName == "" then
      match podContainers with
      | c :: _ => .ok c
      | [] => .error ("no containers found in pod " ++ podName)
    else .ok containerName
  match containerResult with
  | .error e => .error e
  | .ok container =>
    let logOptions : PodLogOptions := { container := container, tailLines := tl, previous := previous }
    .ok (logOptions, renderLogs stream)

/-- C4: whenever GetPodLogs succeeds, an unspecified tail_lines was set to
100 in the issued request options, the stream read is capped at 1 MiB, and
a stream longer than the cap yields exactly the first 1 MiB followed by one
copy of the truncation marker. -/
lemma GetPodLogs_ok_elim (podName containerName : String) (tailLines : Option Int)
    (previous : Bool) (podContainers : List String) (stream : List Char)
    (opts : PodLogOptions) (logs : List Char)
    (h : GetPodLogs podName containerName tailLines previous podContainers stream =
      .ok (opts, logs)) :
    opts.tailLines = tailLines.getD 100 ∧
    logs = renderLogs stream := by
  simp only [GetPodLogs] at h
  split at h
  · exact absurd h (by simp)
  · simp only [Except.ok.injEq, Prod.mk.injEq] at h
    obtain ⟨h1, h2⟩ := h
    refine ⟨?_, h2.symm⟩
    rw [← h1]
    cases tailLines <;> rfl

theorem GetPodLogs_default_and_truncation (podName containerName : String)
    (tailLines : Option Int) (previous : Bool) (podContainers : List String)
    (stream : List Char) (opts : PodLogOptions) (logs : List Char)
    (h : GetPodLogs podName containerName tailLines previous podContainers stream =
      .ok (opts, logs)) :
    (tailLines = none → opts.tailLines = 100) ∧
    (readLogStream stream).length ≤ maxLogBytes ∧
    (maxLogBytes < stream.length → logs = stream.take maxLogBytes ++ truncationMarker) := by
  obtain ⟨hopt, hlogs⟩ := GetPodLogs_ok_elim podName containerName tailLines previous
    podContainers stream opts logs h
  refine ⟨?_, ?_, ?_⟩
  · intro hnone
    subst hnone
    exact hopt
  · simp only [readLogStream, List.length_take]
    omega
  · intro hlong
    have hcap : maxLogBytes ≤ (stream.take maxLogBytes).length := by
      simp only [List.length_take]
      omega
    rw [hlogs]
    simp only [renderLogs, readLogStream]
    rw [if_pos hcap]

/-- Witness for C4: a concrete successful GetPodLogs call with no tail_lines
and no explicit container on a one-container pod and a two-byte stream. -/
theorem GetPodLogs_default_and_truncation_witness :
    GetPodLogs "web" "" none false ["app"] ['o', 'k'] =
      .ok ({ container := "app", tailLines := 100, previous := false }, ['o', 'k']) ∧
    ({ container := "app", tailLines := 100, previous := false } : PodLogOptions).tailLines
        = 100 ∧
    (readLogStream ['o', 'k']).length ≤ maxLogBytes :=
  ⟨rfl,
   (GetPodLogs_default_and_truncation "web" "" none false ["app"] ['o', 'k']
      { container := "app", tailLines := 100, previous := false } ['o', 'k'] rfl).1 rfl,
   (GetPodLogs_default_and_truncation "web" "" none false ["app"] ['o', 'k']
      { container := "app", tailLines := 100, previous := false } ['o', 'k'] rfl).2.1⟩

/-- C10: the truncation marker is appended exactly when the number of bytes
read equals the 1 MiB cap (equivalently, when the total stream length is at
least the cap), not only when the stream strictly exceeded it; in
particular a stream of exactly 1 MiB is returned whole with the marker
appended even though no bytes were discarded. -/
theorem renderLogs_marker_iff_cap_reached (stream : List Char) :
    renderLogs stream =
      stream.take maxLogBytes ++
        (if maxLogBytes ≤ stream.length then truncationMarker else []) ∧
    ((readLogStream stream).length = maxLogBytes ↔ maxLogBytes ≤ stream.length) ∧
    (stream.length = maxLogBytes → renderLogs stream = stream ++ truncationMarker) := by
  have hlen : (readLogStream stream).length = min maxLogBytes stream.length := by
    simp [readLogStream]
  refine ⟨?_, ?_, ?_⟩
  · simp only [renderLogs]
    rw [hlen]
    by_cases hb : maxLogBytes ≤ stream.length
    · rw [if_pos (by omega), if_pos hb]
      rfl
    · rw [if_neg (by omega), if_neg hb]
      simp [readLogStream]
  · rw [hlen]
    omega
  · intro heq
    simp only [renderLogs]
    rw [hlen, if_pos (by omega)]
    rw [readLogStream, List.take_of_length_le (by omega)]

/-- Witness for C10 at a stream of exactly 1 MiB: the whole stream comes
back with the marker appended although nothing was discarded. -/
theorem renderLogs_marker_iff_cap_reached_witness :
    renderLogs (List.replicate maxLogBytes 'a') =
      List.replicate maxLogBytes 'a' ++ truncationMarker :=
  (renderLogs_marker_iff_cap_reached (List.replicate maxLogBytes 'a')).2.2
    (by simp)

/-! JSON values and the secret redaction path of the MCP server
(handleGetResource / handleGetResourceYAML / redactSecretData) together
with GetResourceDetails from internal/k8s/resources.go. -/

mutual
/-- A JSON value as handled by the server: a string leaf or an object. The
object field list is a separate inductive so that all recursion is
structural. -/
inductive JSONValue where
  | str (s : String)
  | obj (fields : JSONFields)
/-- Field list of a JSON object: an association list of key and value. -/
inductive JSONFields where
  | nil
  | cons (key : String) (value : JSONValue) (rest : JSONFields)
end

/-- Lookup of a key in a JSON object field list. -/
def getJSONField (fields : JSONFields) (k : String) : Option JSONValue :=
  match fields with
  | .nil => none
  | .cons key value rest => if key == k then some value else getJSONField rest k

/-- Replace the value at a key when the key is present; a map without the
key is left unchanged (the in-place Go map write guarded by an existence
check). -/
def setJSONFieldIfPresent (fields : JSONFields) (k : String) (v : JSONValue) : JSONFields :=
  match fields with
  | .nil => .nil
  | .cons key value rest =>
    if key == k then .cons key v rest
    else .cons key value (setJSONFieldIfPresent rest k v)

mutual
/-- Serialization of a JSON value, modelling encoding/json marshalling of
the value (field order is the order of the field list; indentation and
string escaping are immaterial to the claims and elided). -/
def serializeJSONValue : JSONValue → String
  | .str s => "\x22" ++ s ++ "\x22"
  | .obj fields => "\x7b" ++ serializeJSONFields fields ++ "\x7d"
/-- Serialization of the field list of a JSON object. -/
def serializeJSONFields : JSONFields → String
  | .nil => ""
  | .cons key value .nil => "\x22" ++ key ++ "\x22: " ++ serializeJSONValue value
  | .cons key value rest =>
    "\x22" ++ key ++ "\x22: " ++ serializeJSONValue value ++ ", " ++ serializeJSONFields rest
end

/-- A fetched corev1.Secret: metadata, type, the data map (whose values the
API delivers base64-encoded, stored here in the textual form in which they
are serialized) and the stringData map (verbatim strings). -/
structure SecretObj where
  name : String
  namespace_ : String
  secretType : String
  data : JSONFields
  stringData : JSONFields

/-- Include a Secret map field only when nonempty (the omitempty JSON tag
on data and stringData). -/
def consFieldIfNonEmpty (key : String) (fields : JSONFields) (rest : JSONFields) : JSONFields :=
  match fields with
  | .nil => rest
  | _ => .cons key (.obj fields) rest

/-- The JSON document produced by marshalling a typed corev1.Secret. -/
def secretToJSON (s : SecretObj) : JSONValue :=
  .obj (.cons "metadata"
          (.obj (.cons "name" (.str s.name) (.cons "namespace" (.str s.namespace_) .nil)))
        (consFieldIfNonEmpty "data" s.data
          (consFieldIfNonEmpty "stringData" s.stringData
            (.cons "type" (.str s.secretType) .nil))))

/-- A resource value held in the Go interface returned by
GetResourceDetails: either a typed API object (here: a typed Secret, the
case the redaction claim turns on) or a generic decoded JSON object map. -/
inductive KResource where
  | secret (s : SecretObj)
  | jsonMap (fields : JSONFields)

/-- GetResourceDetails for resource type secret or secrets: the API client
returns the typed Secret object, not a generic map. -/
def getSecretDetails (s : SecretObj) : KResource :=
  KResource.secret s

/-- redactSecretData: the type assertion to a generic JSON map succeeds only
on the jsonMap case, where the data and stringData keys, when present, are
overwritten with the sentinel; any other dynamic type is returned
unchanged. -/
def redactSecretData (resource : KResource) : KResource :=
  match resource with
  | .jsonMap fields =>
    .jsonMap (setJSONFieldIfPresent
                (setJSONFieldIfPresent fields "data" (.str "***REDACTED***"))
                "stringData" (.str "***REDACTED***"))
  | r => r

/-- SerializeResource: marshal the resource value to a JSON string. -/
def SerializeResource (resource : KResource) : String :=
  match resource with
  | .secret s => serializeJSONValue (secretToJSON s)
  | .jsonMap fields => serializeJSONValue (.obj fields)

/-- handleGetResource on an already-fetched resource: apply redaction when
the requested resource_type is the secret kind (either spelling), then
serialize. handleGetResourceYAML has the identical shape. -/
def handleGetResource (resourceType : String) (fetched : KResource) : String :=
  let resource :=
    if resourceType == "secrets" || resourceType == "secret" then redactSecretData fetched
    else fetched
  SerializeResource resource

/-- Prefix test on character lists. -/
def isPrefixChars : List Char → List Char → Bool
  | [], _ => true
  | _ :: _, [] => false
  | a :: as, b :: bs => a == b && isPrefixChars as bs

/-- Substring test: does the needle occur contiguously in the haystack? -/
def containsChars (hay needle : List Char) : Bool :=
  match hay with
  | [] => needle.isEmpty
  | _ :: rest => isPrefixChars needle hay || containsChars rest needle

/-- C1 (refuted by the code): a get_resource call with resource_type secret
on a fetched Secret serializes the original data and stringData values into
the response text and never introduces the redaction sentinel, because
redactSecretData only rewrites generic JSON maps while GetResourceDetails
returns the typed Secret object. Concretely, for a Secret with a base64
data value and a stringData value, both values occur verbatim in the
response of get_resource (and likewise for the plural spelling), the
sentinel does not occur, and the output is byte-identical to the
serialization with no redaction requested at all. -/
theorem handleGetResource_secret_leaks_values :
    (containsChars (handleGetResource "secret"
        (getSecretDetails
          { name := "db-creds", namespace_ := "default", secretType := "Opaque",
            data := .cons "token" (.str "czNjcjN0") .nil,
            stringData := .cons "password" (.str "hunter2") .nil })).toList
      "hunter2".toList = true) ∧
    (containsChars (handleGetResource "secret"
        (getSecretDetails
          { name := "db-creds", namespace_ := "default", secretType := "Opaque",
            data := .cons "token" (.str "czNjcjN0") .nil,
            stringData := .cons "password" (.str "hunter2") .nil })).toList
      "czNjcjN0".toList = true) ∧
    (containsChars (handleGetResource "secrets"
        (getSecretDetails
          { name := "db-creds", namespace_ := "default", secretType := "Opaque",
            data := .cons "token" (.str "czNjcjN0") .nil,
            stringData := .cons "password" (.str "hunter2") .nil })).toList
      "hunter2".toList = true) ∧
    (containsChars (handleGetResource "secret"
        (getSecretDetails
          { name := "db-creds", namespace_ := "default", secretType := "Opaque",
            data := .cons "token" (.str "czNjcjN0") .nil,
            stringData := .cons "password" (.str "hunter2") .nil })).toList
      "***REDACTED***".toList = false) ∧
    ((handleGetResource "secret"
        (getSecretDetails
          { name := "db-creds", namespace_ := "default", secretType := "Opaque",
            data := .cons "token" (.str "czNjcjN0") .nil,
            stringData := .cons "password" (.str "hunter2") .nil })
      == handleGetResource "pods"
        (getSecretDetails
          { name := "db-creds", namespace_ := "default", secretType := "Opaque",
            data := .cons "token" (.str "czNjcjN0") .nil,
            stringData := .cons "password" (.str "hunter2") .nil })) = true) := by
  decide

/-- By contrast, the redaction function does work on a generic JSON map:
when the fetched value is a decoded map with data and stringData keys, the
serialized response carries the sentinel and not the original values. This
confirms the redaction branch itself matches its intent and isolates the
bug to the dynamic type of the fetched resource. -/
theorem redactSecretData_on_map_redacts :
    (containsChars (handleGetResource "secret"
        (KResource.jsonMap
          (.cons "data" (.obj (.cons "token" (.str "czNjcjN0") .nil))
            (.cons "stringData" (.obj (.cons "password" (.str "hunter2") .nil)) .nil)))).toList
      "***REDACTED***".toList = true) ∧
    (containsChars (handleGetResource "secret"
        (KResource.jsonMap
          (.cons "data" (.obj (.cons "token" (.str "czNjcjN0") .nil))
            (.cons "stringData" (.obj (.cons "password" (.str "hunter2") .nil)) .nil)))).toList
      "hunter2".toList = false) := by
  decide

/-! MCP protocol model: the JSON-RPC envelope types, the method-specific
request and result shapes, and the message dispatcher from
internal/mcp/transport.go. -/

/-- The MCP protocol version supported by the server. -/
def ProtocolVersion : String := "2025-06-18"

/-- A JSON-RPC id: number, string, or null (the Go field is interface). -/
inductive JsonId where
  | num (n : Int)
  | str (s : String)
  | null
deriving DecidableEq, Repr

/-- A JSON-RPC request envelope. The params field is nil both when absent
and when JSON null (a Go interface decoded from either is nil). -/
structure JSONRPCRequest where
  jsonrpc : String
  id : JsonId
  method : String
  params : Option JSONValue

/-- A JSON-RPC error object; the data payloads this server attaches are the
error text or the offending method name. -/
structure JSONRPCError where
  code : Int
  message : String
  data : Option String
deriving DecidableEq, Repr

/-- Standard JSON-RPC error codes. -/
def ParseError : Int := -32700

/-- Invalid request error code. -/
def InvalidRequest : Int := -32600

/-- Method not found error code. -/
def MethodNotFound : Int := -32601

/-- Invalid params error code. -/
def InvalidParams : Int := -32602

/-- Internal error code. -/
def InternalError : Int := -32603

/-- Name, title and version of a protocol participant. -/
structure Implementation where
  name : String
  title : String
  version : String
deriving DecidableEq, Repr

/-- Roots capability of a client. -/
structure RootsCapability where
  listChanged : Bool
deriving DecidableEq, Repr

/-- Capabilities announced by a client. -/
structure ClientCapabilities where
  roots : Option RootsCapability := none
  sampling : Option Unit := none
  elicitation : Option Unit := none
deriving DecidableEq, Repr

/-- Resources capability of the server. -/
structure ResourcesCapability where
  subscribe : Bool
  listChanged : Bool
deriving DecidableEq, Repr

/-- Tools capability of the server. -/
structure ToolsCapability where
  listChanged : Bool
deriving DecidableEq, Repr

/-- Prompts capability of the server. -/
structure PromptsCapability where
  listChanged : Bool
deriving DecidableEq, Repr

/-- Capabilities announced by the server. -/
structure ServerCapabilities where
  resources : Option ResourcesCapability := none
  tools : Option ToolsCapability := none
  prompts : Option PromptsCapability := none
  logging : Option Unit := none
  completions : Option Unit := none
deriving DecidableEq, Repr

/-- Parameters of the initialize method. -/
structure InitializeRequest where
  protocolVersion : String
  capabilities : ClientCapabilities
  clientInfo : Implementation
deriving DecidableEq, Repr

/-- Result of the initialize method. -/
structure InitializeResult where
  protocolVersion : String
  capabilities : ServerCapabilities
  serverInfo : Implementation
  instructions : String
deriving DecidableEq, Repr

/-- A text content item. -/
structure TextContent where
  type_ : String
  text : String
deriving DecidableEq, Repr

/-- A content item of a tool result; the server only ever constructs text
content. -/
inductive ToolContent where
  | text (t : TextContent)
deriving DecidableEq, Repr

/-- Parameters of tools/call; arguments is a JSON object map. -/
structure CallToolRequest where
  name : String
  arguments : JSONFields

/-- Result of tools/call. -/
structure CallToolResult where
  content : List ToolContent
  isError : Bool

/-- A tool descriptor (the fields relevant to the claims). -/
structure Tool where
  name : String
  description : String
deriving DecidableEq, Repr

/-- Result of tools/list. -/
structure ListToolsResult where
  tools : List Tool
deriving DecidableEq, Repr

/-- A resource descriptor. -/
structure Resource where
  uri : String
  name : String
  title : String
  description : String
  mimeType : String
deriving DecidableEq, Repr

/-- Result of resources/list. -/
structure ListResourcesResult where
  resources : List Resource
deriving DecidableEq, Repr

/-- Parameters of resources/read. -/
structure ReadResourceRequest where
  uri : String
deriving DecidableEq, Repr

/-- One content entry of a read resource. -/
structure ResourceContents where
  uri : String
  name : String
  mimeType : String
  text : String
deriving DecidableEq, Repr

/-- Result of resources/read. -/
structure ReadResourceResult where
  contents : List ResourceContents
deriving DecidableEq, Repr

/-- A prompt descriptor. -/
structure Prompt where
  name : String
  description : String
deriving DecidableEq, Repr

/-- Result of prompts/list. -/
structure ListPromptsResult where
  prompts : List Prompt
deriving DecidableEq, Repr

/-- Parameters of prompts/get. -/
structure GetPromptRequest where
  name : String
  arguments : List (String × String)
deriving DecidableEq, Repr

/-- One message of a prompt. -/
structure PromptMessage where
  role : String
  content : ToolContent
deriving DecidableEq, Repr

/-- Result of prompts/get. -/
structure GetPromptResult where
  description : String
  messages : List PromptMessage
deriving DecidableEq, Repr

/-- The result payload of a successful response, tagged by the method that
produced it (the Go field is interface). -/
inductive MCPResult where
  | initializeRes (r : InitializeResult)
  | listToolsRes (r : ListToolsResult)
  | callToolRes (r : CallToolResult)
  | listResourcesRes (r : ListResourcesResult)
  | readResourceRes (r : ReadResourceResult)
  | listPromptsRes (r : ListPromptsResult)
  | getPromptRes (r : GetPromptResult)
  | pingRes

/-- A JSON-RPC response envelope. -/
structure JSONRPCResponse where
  jsonrpc : String
  id : JsonId
  result : Option MCPResult
  error : Option JSONRPCError

/-- NewJSONRPCError builds a JSON-RPC error object. -/
def NewJSONRPCError (code : Int) (message : String) (data : Option String) : JSONRPCError :=
  { code := code, message := message, data := data }

/-- NewJSONRPCResponse builds a success response echoing the given id. -/
def NewJSONRPCResponse (id : JsonId) (result : MCPResult) : JSONRPCResponse :=
  { jsonrpc := "2.0", id := id, result := some result, error := none }

/-- NewJSONRPCErrorResponse builds an error response echoing the given id. -/
def NewJSONRPCErrorResponse (id : JsonId) (err : JSONRPCError) : JSONRPCResponse :=
  { jsonrpc := "2.0", id := id, result := none, error := some err }

/-- The MessageHandler interface: one handler per MCP method. The handlers
are opaque to the dispatcher; stateful server behaviour is modelled by
whatever functions are supplied. -/
structure MessageHandler where
  handleInitialize : InitializeRequest → JsonId → Except String InitializeResult
  handleListTools : Except String ListToolsResult
  handleCallTool : CallToolRequest → Except String CallToolResult
  handleListResources : Except String ListResourcesResult
  handleReadResource : ReadResourceRequest → Except String ReadResourceResult
  handleListPrompts : Except String ListPromptsResult
  handleGetPrompt : GetPromptRequest → Except String GetPromptResult

/-- JSON decoding of the params value into each typed request shape is an
external effect (encoding/json); the dispatcher is parametric in it. -/
structure ParamDecoders where
  decodeInitialize : JSONValue → Except String InitializeRequest
  decodeCallTool : JSONValue → Except String CallToolRequest
  decodeReadResource : JSONValue → Except String ReadResourceRequest
  decodeGetPrompt : JSONValue → Except String GetPromptRequest

/-- Zero value of InitializeRequest. -/
def zeroInitializeRequest : InitializeRequest :=
  { protocolVersion := "", capabilities := {}, clientInfo := { name := "", title := "", version := "" } }

/-- Zero value of CallToolRequest: empty tool name, nil arguments map. -/
def zeroCallToolRequest : CallToolRequest :=
  { name := "", arguments := .nil }

/-- Zero value of ReadResourceRequest. -/
def zeroReadResourceRequest : ReadResourceRequest :=
  { uri := "" }

/-- Zero value of GetPromptRequest. -/
def zeroGetPromptRequest : GetPromptRequest :=
  { name := "", arguments := [] }

/-- unmarshalParams: nil params leave the zero-valued target untouched and
succeed; otherwise the params value is decoded into the target shape. -/
def unmarshalParams (params : Option JSONValue) (decode : JSONValue → Except String α)
    (zero : α) : Except String α :=
  match params with
  | none => .ok zero
  | some v => decode v

/-- Dispatcher branch for initialize. -/
def dispatchInitialize (d : ParamDecoders) (h : MessageHandler) (request : JSONRPCRequest) :
    JSONRPCResponse :=
  match unmarshalParams request.params d.decodeInitialize zeroInitializeRequest with
  | .error e =>
    NewJSONRPCErrorResponse request.id (NewJSONRPCError InvalidParams "Invalid parameters" (some e))
  | .ok initReq =>
    match h.handleInitialize initReq request.id with
    | .error e =>
      NewJSONRPCErrorResponse request.id (NewJSONRPCError InternalError "Initialize failed" (some e))
    | .ok result => NewJSONRPCResponse request.id (.initializeRes result)

/-- Dispatcher branch for tools/list. -/
def dispatchListTools (h : MessageHandler) (request : JSONRPCRequest) : JSONRPCResponse :=
  match h.handleListTools with
  | .error e =>
    NewJSONRPCErrorResponse request.id (NewJSONRPCError InternalError "List tools failed" (some e))
  | .ok result => NewJSONRPCResponse request.id (.listToolsRes result)

/-- Dispatcher branch for tools/call. -/
def dispatchCallTool (d : ParamDecoders) (h : MessageHandler) (request : JSONRPCRequest) :
    JSONRPCResponse :=
  match unmarshalParams request.params d.decodeCallTool zeroCallToolRequest with
  | .error e =>
    NewJSONRPCErrorResponse request.id (NewJSONRPCError InvalidParams "Invalid parameters" (some e))
  | .ok callReq =>
    match h.handleCallTool callReq with
    | .error e =>
      NewJSONRPCErrorResponse request.id (NewJSONRPCError InternalError "Tool call failed" (some e))
    | .ok result => NewJSONRPCResponse request.id (.callToolRes result)

/-- Dispatcher branch for resources/list. -/
def dispatchListResources (h : MessageHandler) (request : JSONRPCRequest) : JSONRPCResponse :=
  match h.handleListResources with
  | .error e =>
    NewJSONRPCErrorResponse request.id
      (NewJSONRPCError InternalError "List resources failed" (some e))
  | .ok result => NewJSONRPCResponse request.id (.listResourcesRes result)

/-- Dispatcher branch for resources/read. -/
def dispatchReadResource (d : ParamDecoders) (h : MessageHandler) (request : JSONRPCRequest) :
    JSONRPCResponse :=
  match unmarshalParams request.params d.decodeReadResource zeroReadResourceRequest with
  | .error e =>
    NewJSONRPCErrorResponse request.id (NewJSONRPCError InvalidParams "Invalid parameters" (some e))
  | .ok readReq =>
    match h.handleReadResource readReq with
    | .error e =>
      NewJSONRPCErrorResponse request.id
        (NewJSONRPCError InternalError "Read resource failed" (some e))
    | .ok result => NewJSONRPCResponse request.id (.readResourceRes result)

/-- Dispatcher branch for prompts/list. -/
def dispatchListPrompts (h : MessageHandler) (request : JSONRPCRequest) : JSONRPCResponse :=
  match h.handleListPrompts with
  | .error e =>
    NewJSONRPCErrorResponse request.id
      (NewJSONRPCError InternalError "List prompts failed" (some e))
  | .ok result => NewJSONRPCResponse request.id (.listPromptsRes result)

/-- Dispatcher branch for prompts/get. -/
def dispatchGetPrompt (d : ParamDecoders) (h : MessageHandler) (request : JSONRPCRequest) :
    JSONRPCResponse :=
  match unmarshalParams request.params d.decodeGetPrompt zeroGetPromptRequest with
  | .error e =>
    NewJSONRPCErrorResponse request.id (NewJSONRPCError InvalidParams "Invalid parameters" (some e))
  | .ok getReq =>
    match h.handleGetPrompt getReq with
    | .error e =>
      NewJSONRPCErrorResponse request.id (NewJSONRPCError InternalError "Get prompt failed" (some e))
    | .ok result => NewJSONRPCResponse request.id (.getPromptRes result)

/-- Dispatcher branch for ping: always an empty success result. -/
def dispatchPing (request : JSONRPCRequest) : JSONRPCResponse :=
  NewJSONRPCResponse request.id .pingRes

/-- Dispatch: route a request to its method's branch. The initialized
notification produces no response (none); unknown methods produce a
MethodNotFound error naming the method. -/
def Dispatch (d : ParamDecoders) (h : MessageHandler) (request : JSONRPCRequest) :
    Option JSONRPCResponse :=
  match request.method with
  | "initialize" => some (dispatchInitialize d h request)
  | "tools/list" => some (dispatchListTools h request)
  | "tools/call" => some (dispatchCallTool d h request)
  | "resources/list" => some (dispatchListResources h request)
  | "resources/read" => some (dispatchReadResource d h request)
  | "prompts/list" => some (dispatchListPrompts h request)
  | "prompts/get" => some (dispatchGetPrompt d h request)
  | "ping" => some (dispatchPing request)
  | "notifications/initialized" => none
  | _ =>
    some (NewJSONRPCErrorResponse request.id
      (NewJSONRPCError MethodNotFound "Method not found" (some request.method)))

lemma dispatchInitialize_id (d : ParamDecoders) (h : MessageHandler) (request : JSONRPCRequest) :
    (dispatchInitialize d h request).id = request.id := by
  unfold dispatchInitialize
  split
  · rfl
  · split <;> rfl

lemma dispatchListTools_id (h : MessageHandler) (request : JSONRPCRequest) :
    (dispatchListTools h request).id = request.id := by
  unfold dispatchListTools
  split <;> rfl

lemma dispatchCallTool_id (d : ParamDecoders) (h : MessageHandler) (request : JSONRPCRequest) :
    (dispatchCallTool d h request).id = request.id := by
  unfold dispatchCallTool
  split
  · rfl
  · split <;> rfl

lemma dispatchListResources_id (h : MessageHandler) (request : JSONRPCRequest) :
    (dispatchListResources h request).id = request.id := by
  unfold dispatchListResources
  split <;> rfl

lemma dispatchReadResource_id (d : ParamDecoders) (h : MessageHandler)
    (request : JSONRPCRequest) : (dispatchReadResource d h request).id = request.id := by
  unfold dispatchReadResource
  split
  · rfl
  · split <;> rfl

lemma dispatchListPrompts_id (h : MessageHandler) (request : JSONRPCRequest) :
    (dispatchListPrompts h request).id = request.id := by
  unfold dispatchListPrompts
  split <;> rfl

lemma dispatchGetPrompt_id (d : ParamDecoders) (h : MessageHandler) (request : JSONRPCRequest) :
    (dispatchGetPrompt d h request).id = request.id := by
  unfold dispatchGetPrompt
  split
  · rfl
  · split <;> rfl

/-- C6: for every decoder set, handler set and request, the dispatcher
returns exactly one response whose id is the request id unchanged - except
for the initialized notification, which returns no response at all. -/
theorem Dispatch_echoes_id (d : ParamDecoders) (h : MessageHandler) (request : JSONRPCRequest) :
    Option.map JSONRPCResponse.id (Dispatch d h request) =
      if request.method = "notifications/initialized" then none else some request.id := by
  unfold Dispatch
  split
  · rename_i heq
    simp [dispatchInitialize_id, heq]
  · rename_i heq
    simp [dispatchListTools_id, heq]
  · rename_i heq
    simp [dispatchCallTool_id, heq]
  · rename_i heq
    simp [dispatchListResources_id, heq]
  · rename_i heq
    simp [dispatchReadResource_id, heq]
  · rename_i heq
    simp [dispatchListPrompts_id, heq]
  · rename_i heq
    simp [dispatchGetPrompt_id, heq]
  · rename_i heq
    simp [dispatchPing, NewJSONRPCResponse, heq]
  · simp_all
  · simp_all [NewJSONRPCErrorResponse]

/-! The initialize handler of the hand-rolled MCP server. A protocol
version mismatch is only logged; the returned result does not depend on the
request at all. -/

/-- HandleInitialize: always succeeds with the server's protocol version,
capabilities (resources without subscribe or listChanged, logging) and
server info; the client's protocol version is only compared for a log
warning. -/
def HandleInitialize (req : InitializeRequest) (id : JsonId) : Except String InitializeResult :=
  Except.ok
    { protocolVersion := ProtocolVersion,
      capabilities :=
        { resources := some { subscribe := false, listChanged := false },
          logging := some () },
      serverInfo := { name := "k8s-mcp-server", title := "Kubernetes MCP Server", version := "1.0.0" },
      instructions := "Kubernetes MCP Server provides read-only access to Kubernetes cluster resources. Use tools to list clusters, switch between them, and view resources. Use resources to access cluster information and resource details." }

/-- C7: for every initialize request, whatever the client's protocolVersion
(in particular a mismatching one), HandleInitialize returns a successful
InitializeResult carrying the server's protocol version, capabilities and
server info; the result is the same for all requests, so a version mismatch
never produces an error. -/
theorem HandleInitialize_permissive (req : InitializeRequest) (id : JsonId) :
    (∃ r, HandleInitialize req id = Except.ok r ∧
      r.protocolVersion = ProtocolVersion ∧
      r.serverInfo = { name := "k8s-mcp-server", title := "Kubernetes MCP Server",
                       version := "1.0.0" } ∧
      r.capabilities = { resources := some { subscribe := false, listChanged := false },
                         logging := some () }) ∧
    (∀ req2 id2, HandleInitialize req2 id2 = HandleInitialize req id) :=
  ⟨⟨_, rfl, rfl, rfl, rfl⟩, fun _ _ => rfl⟩

/-! RBAC permission check: CheckRBACPermission from
internal/k8s/resources.go and its tool handler from the SDK-based server. -/

/-- The resource attributes submitted in a SelfSubjectAccessReview. -/
structure SARAttributes where
  namespace_ : String
  verb : String
  resource : String
deriving DecidableEq, Repr

/-- Result shape of the check_rbac_permission tool. -/
structure RBACPermissionResult where
  allowed : Bool
  reason : String
deriving DecidableEq, Repr

/-- CheckRBACPermission: always resolves the client of the current cluster
(no cluster parameter exists), submits a SelfSubjectAccessReview carrying
the namespace, verb and resource, and returns the review's allowed boolean.
The API call is the external effect `api`. -/
def CheckRBACPermission (cm : ClusterManager) (api : Client → SARAttributes → Except String Bool)
    (verb resource namespace_ : String) : Except String Bool :=
  match GetCurrentClient cm with
  | .error e => .error e
  | .ok client =>
    match api client { namespace_ := namespace_, verb := verb, resource := resource } with
    | .error e => .error ("failed to check RBAC permission: " ++ e)
    | .ok allowed => .ok allowed

/-- handleCheckRBACPermission: wraps the check and pairs the boolean with
the fixed reason text. -/
def handleCheckRBACPermission (cm : ClusterManager)
    (api : Client → SARAttributes → Except String Bool)
    (verb resource namespace_ : String) : Except String RBACPermissionResult :=
  match CheckRBACPermission cm api verb resource namespace_ with
  | .error e => .error ("failed to check RBAC permission: " ++ e)
  | .ok allowed =>
    .ok { allowed := allowed,
          reason := if allowed then "Permission granted" else "Permission denied" }

/-- C8: the access review is submitted against the current cluster's client
only - the outcome depends solely on the current client, there is no
cluster argument to select another one - with exactly the namespace, verb
and resource of the call, and the tool result pairs the review's allowed
boolean with "Permission granted" when it is true and "Permission denied"
when it is false. -/
theorem CheckRBACPermission_current_cluster_and_reason (cm : ClusterManager)
    (api : Client → SARAttributes → Except String Bool) (verb resource namespace_ : String)
    (client : Client) (hcur : GetCurrentClient cm = .ok client) :
    (∀ cm2, GetCurrentClient cm2 = GetCurrentClient cm →
      CheckRBACPermission cm2 api verb resource namespace_ =
        CheckRBACPermission cm api verb resource namespace_) ∧
    (∀ b, api client { namespace_ := namespace_, verb := verb, resource := resource } = .ok b →
      CheckRBACPermission cm api verb resource namespace_ = .ok b) ∧
    (∀ b, CheckRBACPermission cm api verb resource namespace_ = .ok b →
      handleCheckRBACPermission cm api verb resource namespace_ =
        .ok { allowed := b,
              reason := if b then "Permission granted" else "Permission denied" }) := by
  refine ⟨?_, ?_, ?_⟩
  · intro cm2 hsame
    unfold CheckRBACPermission
    rw [hsame]
  · intro b hapi
    unfold CheckRBACPermission
    rw [hcur]
    simp [hapi]
  · intro b hok
    unfold handleCheckRBACPermission
    rw [hok]

/-- Witness for C8 at a one-cluster registry whose review grants the
permission, and at one that denies it. -/
theorem CheckRBACPermission_current_cluster_and_reason_witness :
    (GetCurrentClient ⟨[("prod", 5)], "prod"⟩ = .ok 5 ∧
      handleCheckRBACPermission ⟨[("prod", 5)], "prod"⟩ (fun _ _ => .ok true)
        "get" "pods" "default" = .ok { allowed := true, reason := "Permission granted" }) ∧
    handleCheckRBACPermission ⟨[("prod", 5)], "prod"⟩ (fun _ _ => .ok false)
        "delete" "pods" "kube-system" =
      .ok { allowed := false, reason := "Permission denied" } :=
  ⟨⟨rfl,
    by
      have h := (CheckRBACPermission_current_cluster_and_reason ⟨[("prod", 5)], "prod"⟩
        (fun _ _ => .ok true) "get" "pods" "default" 5 rfl).2.2 true
      have hok : CheckRBACPermission ⟨[("prod", 5)], "prod"⟩ (fun _ _ => .ok true)
          "get" "pods" "default" = .ok true :=
        (CheckRBACPermission_current_cluster_and_reason ⟨[("prod", 5)], "prod"⟩
          (fun _ _ => .ok true) "get" "pods" "default" 5 rfl).2.1 true rfl
      simpa using h hok⟩,
   by
    have h := (CheckRBACPermission_current_cluster_and_reason ⟨[("prod", 5)], "prod"⟩
      (fun _ _ => .ok false) "delete" "pods" "kube-system" 5 rfl).2.2 false
    have hok : CheckRBACPermission ⟨[("prod", 5)], "prod"⟩ (fun _ _ => .ok false)
        "delete" "pods" "kube-system" = .ok false :=
      (CheckRBACPermission_current_cluster_and_reason ⟨[("prod", 5)], "prod"⟩
        (fun _ _ => .ok false) "delete" "pods" "kube-system" 5 rfl).2.1 false rfl
    simpa using h hok⟩

/-! The tools/call handler of the hand-rolled MCP server: HandleCallTool
and the cluster tool handlers that operate on the registry alone. Handlers
that perform live API reads are opaque. -/

/-- The tool handlers that reach out to the Kubernetes API; their behaviour
is opaque to the dispatch claim. -/
structure Part008Handlers where
  listNamespacesTool : JSONFields → Except String CallToolResult
  listResourcesTool : JSONFields → Except String CallToolResult
  getResourceTool : JSONFields → Except String CallToolResult
  describeResourceTool : JSONFields → Except String CallToolResult

/-- handleListClusters: format the registered cluster names, marking the
current one. -/
def handleListClusters (cm : ClusterManager) : Except String CallToolResult :=
  let clusters := GetClusters cm
  let current := GetCurrentCluster cm
  let clusterList := clusters.map (fun c => if c == current then c ++ " (current)" else c)
  let text := "Available clusters:\n" ++ String.intercalate "\n" clusterList
  .ok { content := [.text { type_ := "text", text := text }], isError := false }

/-- handleSwitchCluster: a missing or non-string cluster_name argument is a
tool-level error; otherwise the switch result is rendered as text (failure
as isError). The mutated registry is returned alongside. -/
def handleSwitchCluster (cm : ClusterManager) (args : JSONFields) :
    Except String CallToolResult × ClusterManager :=
  match getJSONField args "cluster_name" with
  | some (.str clusterName) =>
    match SwitchCluster cm clusterName with
    | (some err, cm1) =>
      (.ok { content := [.text ⟨"text",
                "Failed to switch to cluster " ++ clusterName ++ ": " ++ err⟩],
             isError := true }, cm1)
    | (none, cm1) =>
      (.ok { content := [.text ⟨"text",
                "Successfully switched to cluster: " ++ clusterName⟩],
             isError := false }, cm1)
  | _ =>
    (.ok { content := [.text ⟨"text",
              "cluster_name parameter is required and must be a string"⟩],
           isError := true }, cm)

/-- handleGetCurrentCluster: the current cluster name as text, or a fixed
message when none is set. -/
def handleGetCurrentCluster (cm : ClusterManager) : Except String CallToolResult :=
  let current := GetCurrentCluster cm
  if current == "" then
    .ok { content := [.text { type_ := "text", text := "No current cluster set" }],
          isError := false }
  else
    .ok { content := [.text { type_ := "text", text := "Current cluster: " ++ current }],
          isError := false }

/-- HandleCallTool: route the tool name; an unknown name yields a
successful result whose payload is the Unknown tool text with isError set.
The registry is threaded through because switch_cluster mutates it. -/
def HandleCallTool (cm : ClusterManager) (hs : Part008Handlers) (req : CallToolRequest) :
    Except String CallToolResult × ClusterManager :=
  match req.name with
  | "list_clusters" => (handleListClusters cm, cm)
  | "switch_cluster" => handleSwitchCluster cm req.arguments
  | "get_current_cluster" => (handleGetCurrentCluster cm, cm)
  | "list_namespaces" => (hs.listNamespacesTool req.arguments, cm)
  | "list_resources" => (hs.listResourcesTool req.arguments, cm)
  | "get_resource" => (hs.getResourceTool req.arguments, cm)
  | "describe_resource" => (hs.describeResourceTool req.arguments, cm)
  | _ =>
    (.ok { content := [.text { type_ := "text", text := "Unknown tool: " ++ req.name }],
           isError := true }, cm)

/-- The MessageHandler view of the hand-rolled server: tools/call is served
by HandleCallTool over the registry (its response component), the other
methods by the base handler set. -/
def part008Handler (cm : ClusterManager) (hs : Part008Handlers) (base : MessageHandler) :
    MessageHandler :=
  { base with handleCallTool := fun req => (HandleCallTool cm hs req).1 }

/-- C9: a tools/call request with absent (or null) params decodes to the
zero-valued CallToolRequest with empty tool name, and the dispatcher
returns a successful JSON-RPC response (no error object, in particular no
InvalidParams) whose tool payload has isError set and the text
"Unknown tool: ". -/
theorem Dispatch_callTool_nil_params (d : ParamDecoders) (base : MessageHandler)
    (cm : ClusterManager) (hs : Part008Handlers) (i : JsonId) :
    unmarshalParams (none : Option JSONValue) d.decodeCallTool zeroCallToolRequest =
      .ok zeroCallToolRequest ∧
    zeroCallToolRequest.name = "" ∧
    Dispatch d (part008Handler cm hs base)
        { jsonrpc := "2.0", id := i, method := "tools/call", params := none } =
      some { jsonrpc := "2.0", id := i,
             result := some (.callToolRes
               { content := [.text { type_ := "text", text := "Unknown tool: " }],
                 isError := true }),
             error := none } :=
  ⟨rfl, rfl, rfl⟩

end K8sMCP
